import Mathlib

/-!
Verification of the netflix-registration auth core.

Shallow embedding of `server.js` (the POST /api/register and POST /api/login
handlers) and `db.js` (users-table schema and `initDatabase` bootstrap).
The backing relational store is modelled as an in-memory list of rows with
the schema's two UNIQUE constraints enforced at insert time, and the
connection-pool driver as an explicit connectivity status whose failures are
surfaced as JavaScript-style errors carrying a `message` and a `code`, which
the handlers classify exactly as the source does.
-/

/-- Connectivity / configuration status of the backing store, as seen by the
connection pool.  `ok` means reachable and correctly configured; the other
constructors are the driver failure modes that the handlers in `server.js`
classify by `err.code` / `err.message`. -/
inductive ConnStatus where
  | ok
  | connRefused
  | timedOut
  | hostNotFound
  | protocolLost
  | configMissingPassword
deriving DecidableEq, Repr

/-- A JavaScript-style error value: the handlers only ever inspect the
`message` and `code` properties of a caught error. -/
structure JsError where
  message : String
  code : String
deriving DecidableEq, Repr

/-- The driver error raised when the pool cannot reach (or is misconfigured
for) the backing store, per failure mode.  Codes are the driver codes that
`server.js` branches on; the DB_PASSWORD configuration error is the error
thrown by `db.js` when the password environment variable is missing. -/
def connError : ConnStatus → Option JsError
  | .ok => none
  | .connRefused => some ⟨"connect ECONNREFUSED", "ECONNREFUSED"⟩
  | .timedOut => some ⟨"connect ETIMEDOUT", "ETIMEDOUT"⟩
  | .hostNotFound => some ⟨"getaddrinfo ENOTFOUND db-host", "ENOTFOUND"⟩
  | .protocolLost => some ⟨"Connection lost: the server closed the connection", "PROTOCOL_CONNECTION_LOST"⟩
  | .configMissingPassword => some ⟨"DB_PASSWORD required - check Vercel environment variables", ""⟩

/-- Modelled from the spec: the external bcrypt library's salted one-way
hash.  `digest` stands for the key-derivation output for the password under
the salt; the derivation is injective in the password for a fixed salt, so
the digest is represented by the password itself.  The program never
inspects a hash except through `bcryptCompare`. -/
structure BcryptHash where
  cost : Nat
  salt : Nat
  digest : String
deriving DecidableEq, Repr

/-- Modelled from the spec: `bcrypt.hash(password, rounds)` with the salt it
draws from its randomness source. -/
def bcryptHash (cost : Nat) (salt : Nat) (password : String) : BcryptHash :=
  ⟨cost, salt, password⟩

/-- Modelled from the spec: `bcrypt.compare(candidate, hash)` re-derives the
digest of the candidate under the cost and salt embedded in the stored hash
and compares, in constant time. -/
def bcryptCompare (candidate : String) (h : BcryptHash) : Bool :=
  bcryptHash h.cost h.salt candidate == h

/-- The VARCHAR image of a bcrypt hash as stored in the `password` column:
the modular-crypt rendering `$2b$cost$salt$digest`. -/
def BcryptHash.render (h : BcryptHash) : String :=
  "$2b$" ++ toString h.cost ++ "$" ++ toString h.salt ++ "$" ++ h.digest

/-- One row of the `users` table (schema in `db.js`): surrogate key `id`,
caller-chosen `user_id` (UNIQUE), `name`, `email` (UNIQUE), `phone`,
hashed `password`, and `created_at` set from the store clock at insert. -/
structure UserRow where
  id : Nat
  user_id : String
  name : String
  email : String
  phone : String
  password : BcryptHash
  created_at : Nat
deriving DecidableEq, Repr

/-- The backing store.  `usersTable = none` models the `users` table not yet
existing; `some rows` holds the rows in insertion order.  `nextId` is the
AUTO_INCREMENT counter for `id`, `clock` the store timestamp source used for
`created_at`. -/
structure DB where
  usersTable : Option (List UserRow)
  nextId : Nat
  clock : Nat
deriving DecidableEq, Repr

/-- `initDatabase` from `db.js`: verifies the connection, then runs
CREATE TABLE IF NOT EXISTS users — the table is created only when missing,
with a fresh AUTO_INCREMENT counter; an existing table is left untouched. -/
def initDatabase (conn : ConnStatus) (db : DB) : Except JsError DB :=
  match connError conn with
  | some e => .error e
  | none =>
      .ok (if db.usersTable.isSome then db
           else { db with usersTable := some [], nextId := 1 })

/-- `ensureDb` from `server.js`: awaits `initDatabase` before the handler
touches the pool (the lazy once-per-cold-start caching and retry of the
shared promise is not modelled; each call runs the bootstrap). -/
def ensureDb (conn : ConnStatus) (db : DB) : Except JsError DB :=
  initDatabase conn db

/-- INSERT INTO users (user_id, name, email, phone, password) VALUES
(?, ?, ?, ?, ?).  The store enforces the two UNIQUE constraints and raises
the driver duplicate-key error — whose message names the violated key, as
the driver does, while the code is ER_DUP_ENTRY either way. -/
def insertUser (db : DB) (uid nm em ph : String) (pw : BcryptHash) :
    Except JsError DB :=
  match db.usersTable with
  | none => .error ⟨"Table users does not exist", "ER_NO_SUCH_TABLE"⟩
  | some rows =>
      if rows.any (fun r => r.user_id == uid) then
        .error ⟨"Duplicate entry " ++ uid ++ " for key users.user_id", "ER_DUP_ENTRY"⟩
      else if rows.any (fun r => r.email == em) then
        .error ⟨"Duplicate entry " ++ em ++ " for key users.email", "ER_DUP_ENTRY"⟩
      else
        .ok { db with
              usersTable := some (rows ++ [⟨db.nextId, uid, nm, em, ph, pw, db.clock⟩]),
              nextId := db.nextId + 1 }

/-- SELECT id, user_id, email, password FROM users WHERE user_id = ? OR
email = ?, both placeholders bound to the same identifier.  Rows come back
in insertion order. -/
def selectUsersByIdOrEmail (db : DB) (ident : String) :
    Except JsError (List UserRow) :=
  match db.usersTable with
  | none => .error ⟨"Table users does not exist", "ER_NO_SUCH_TABLE"⟩
  | some rows => .ok (rows.filter (fun r => r.user_id == ident || r.email == ident))

/-- A store query issued by a handler through `pool.execute`; recorded so
that theorems can speak about which store accesses an operation performs. -/
inductive Query where
  | insertUser (uid nm em ph : String) (pw : BcryptHash)
  | selectUserByIdOrEmail (ident : String)
deriving DecidableEq, Repr

/-- JSON body of POST /api/register; a missing property is `none`. -/
structure RegisterBody where
  user_id : Option String
  name : Option String
  email : Option String
  phone : Option String
  password : Option String
deriving DecidableEq, Repr

/-- JSON body of POST /api/login; a missing property is `none`. -/
structure LoginBody where
  loginId : Option String
  password : Option String
deriving DecidableEq, Repr

/-- An HTTP outcome as the handlers produce it: status code plus the
`{success, message}` JSON payload. -/
structure ApiResponse where
  status : Nat
  success : Bool
  message : String
deriving DecidableEq, Repr

/-- Result of running a handler: the response, the store afterwards, and
the `pool.execute` store queries the handler issued. -/
structure HandlerResult where
  resp : ApiResponse
  db : DB
  queries : List Query
deriving DecidableEq, Repr

/-- JavaScript string truthiness on an optional request field:
`!x` holds exactly when the property is absent or the empty string. -/
def falsy : Option String → Bool
  | none => true
  | some s => s == ""

/-- JavaScript `String.prototype.trim`: remove leading and trailing
whitespace. -/
def jsTrim (s : String) : String :=
  ⟨List.rdropWhile Char.isWhitespace (s.data.dropWhile Char.isWhitespace)⟩

/-- JavaScript `String.prototype.includes`: the search string occurs as a
contiguous substring. -/
def jsIncludes (s sub : String) : Bool :=
  decide (sub.data <:+: s.data)

/-- The catch-block of the register handler (`server.js` lines 106 to 127):
duplicate-key errors become the combined 400 message, DB_PASSWORD
configuration errors and refused/timed-out connections become specific 500
messages, anything else the generic 500. -/
def classifyRegisterError (e : JsError) : ApiResponse :=
  if e.code == "ER_DUP_ENTRY" then
    ⟨400, false, "User ID or Email already exists."⟩
  else if jsIncludes e.message "DB_PASSWORD" then
    ⟨500, false, "Database configuration error. Please check server logs."⟩
  else if e.code == "ECONNREFUSED" || e.code == "ETIMEDOUT" then
    ⟨500, false, "Database connection failed. Please try again later."⟩
  else
    ⟨500, false, "Server error. Please try again."⟩

/-- The catch-block of the login handler (`server.js` lines 167 to 188):
DB_PASSWORD configuration errors, refused/timed-out/lost connections and
unresolvable hosts get specific 500 messages, anything else the generic
500.  Unlike register, there is no duplicate-key branch, and ENOTFOUND and
PROTOCOL_CONNECTION_LOST are classified here. -/
def classifyLoginError (e : JsError) : ApiResponse :=
  if jsIncludes e.message "DB_PASSWORD" then
    ⟨500, false, "Database configuration error. Check Vercel environment variables."⟩
  else if e.code == "ECONNREFUSED" || e.code == "ETIMEDOUT"
          || e.code == "PROTOCOL_CONNECTION_LOST" then
    ⟨500, false, "Database connection failed. Please try again later."⟩
  else if e.code == "ENOTFOUND" then
    ⟨500, false, "Database host not found. Check DB_HOST environment variable."⟩
  else
    ⟨500, false, "Server error. Please try again."⟩

/-- POST /api/register (`server.js` lines 88 to 129).  Validates the five
fields by JavaScript truthiness (before any trimming and before any store
access), awaits `ensureDb`, hashes the password as supplied with bcrypt at
10 rounds drawing `salt` from the hashing randomness, and inserts the
trimmed `user_id`, `name`, `email`, `phone` with the hash.  Store errors
are classified by `classifyRegisterError`. -/
def register (conn : ConnStatus) (salt : Nat) (db : DB) (b : RegisterBody) :
    HandlerResult :=
  if falsy b.user_id || falsy b.name || falsy b.email || falsy b.phone
      || falsy b.password then
    ⟨⟨400, false, "All fields are required."⟩, db, []⟩
  else
    match ensureDb conn db with
    | .error e => ⟨classifyRegisterError e, db, []⟩
    | .ok db1 =>
        let hashedPassword := bcryptHash 10 salt (b.password.getD "")
        let uid := jsTrim (b.user_id.getD "")
        let nm := jsTrim (b.name.getD "")
        let em := jsTrim (b.email.getD "")
        let ph := jsTrim (b.phone.getD "")
        let q := Query.insertUser uid nm em ph hashedPassword
        match insertUser db1 uid nm em ph hashedPassword with
        | .error e => ⟨classifyRegisterError e, db1, [q]⟩
        | .ok db2 =>
            ⟨⟨200, true, "Registration successful. Redirecting to login..."⟩,
             db2, [q]⟩

/-- POST /api/login (`server.js` lines 140 to 190).  Validates `loginId`
and `password` by JavaScript truthiness, awaits `ensureDb`, issues the
single OR-query on the trimmed identifier, and considers `rows[0]` only:
no row gives the generic 401; otherwise the supplied password is compared
against that row's stored hash with `bcrypt.compare`, a mismatch giving
the same generic 401.  Store errors are classified by
`classifyLoginError`. -/
def login (conn : ConnStatus) (db : DB) (b : LoginBody) : HandlerResult :=
  if falsy b.loginId || falsy b.password then
    ⟨⟨400, false, "User ID/Email and password are required."⟩, db, []⟩
  else
    match ensureDb conn db with
    | .error e => ⟨classifyLoginError e, db, []⟩
    | .ok db1 =>
        let ident := jsTrim (b.loginId.getD "")
        let q := Query.selectUserByIdOrEmail ident
        match selectUsersByIdOrEmail db1 ident with
        | .error e => ⟨classifyLoginError e, db1, [q]⟩
        | .ok rows =>
            match rows with
            | [] => ⟨⟨401, false, "Invalid User ID/Email or password."⟩, db1, [q]⟩
            | user :: _ =>
                if bcryptCompare (b.password.getD "") user.password then
                  ⟨⟨200, true, "Login successful!"⟩, db1, [q]⟩
                else
                  ⟨⟨401, false, "Invalid User ID/Email or password."⟩, db1, [q]⟩

/-! ## Supporting lemmas -/

/-- The first element of a non-empty prefix is the first element of the
whole list. -/
theorem prefix_get_zero {α : Type} (r m : List α) (hpre : r <+: m)
    (hr : 0 < r.length) (hm : 0 < m.length) :
    m.get ⟨0, hm⟩ = r.get ⟨0, hr⟩ := by
  obtain ⟨t, rfl⟩ := hpre
  simp only [List.get_eq_getElem]
  exact List.getElem_append_left hr

/-- Trimming is idempotent: values stored by register (which trims before
insert) are fixed points of `jsTrim`. -/
theorem jsTrim_idem (s : String) : jsTrim (jsTrim s) = jsTrim s := by
  unfold jsTrim
  congr 1
  show List.rdropWhile Char.isWhitespace
      (List.dropWhile Char.isWhitespace
        (List.rdropWhile Char.isWhitespace (s.data.dropWhile Char.isWhitespace)))
    = List.rdropWhile Char.isWhitespace (s.data.dropWhile Char.isWhitespace)
  have hdw : List.dropWhile Char.isWhitespace
      (List.rdropWhile Char.isWhitespace (s.data.dropWhile Char.isWhitespace))
      = List.rdropWhile Char.isWhitespace (s.data.dropWhile Char.isWhitespace) := by
    rw [List.dropWhile_eq_self_iff]
    intro hl
    obtain ⟨t, ht⟩ := List.rdropWhile_prefix Char.isWhitespace
      (s.data.dropWhile Char.isWhitespace)
    have hm0 : 0 < (s.data.dropWhile Char.isWhitespace).length := by
      rw [← ht, List.length_append]
      omega
    have hget := prefix_get_zero _ _
      (List.rdropWhile_prefix Char.isWhitespace (s.data.dropWhile Char.isWhitespace))
      hl hm0
    rw [← hget]
    exact List.dropWhile_get_zero_not Char.isWhitespace s.data hm0
  rw [hdw, List.rdropWhile_idempotent]

/-- Verifying a candidate against a bcrypt hash succeeds exactly when the
candidate is the hashed password. -/
theorem bcryptCompare_hash_iff (cand p : String) (c s : Nat) :
    bcryptCompare cand (bcryptHash c s p) = true ↔ cand = p := by
  simp [bcryptCompare, bcryptHash]

/-- When the users table already exists and the store is reachable,
`ensureDb` succeeds without touching the store state. -/
theorem ensureDb_table_ready (db : DB) (rows : List UserRow)
    (h : db.usersTable = some rows) : ensureDb ConnStatus.ok db = Except.ok db := by
  simp [ensureDb, initDatabase, connError, h]

/-- A registration whose trimmed `user_id` and `email` collide with no
stored row succeeds: it appends exactly one row holding the trimmed fields
and the bcrypt hash of the password as supplied, and issues exactly the one
INSERT. -/
theorem register_fresh_success
    (salt : Nat) (db : DB) (rows : List UserRow) (uid nm em ph pw : String)
    (htable : db.usersTable = some rows)
    (huid : uid ≠ "") (hnm : nm ≠ "") (hem : em ≠ "") (hph : ph ≠ "") (hpw : pw ≠ "")
    (hfuid : ∀ r ∈ rows, r.user_id ≠ jsTrim uid)
    (hfem : ∀ r ∈ rows, r.email ≠ jsTrim em) :
    register ConnStatus.ok salt db ⟨some uid, some nm, some em, some ph, some pw⟩ =
      ⟨⟨200, true, "Registration successful. Redirecting to login..."⟩,
       { db with
         usersTable := some (rows ++
           [⟨db.nextId, jsTrim uid, jsTrim nm, jsTrim em, jsTrim ph,
             bcryptHash 10 salt pw, db.clock⟩]),
         nextId := db.nextId + 1 },
       [Query.insertUser (jsTrim uid) (jsTrim nm) (jsTrim em) (jsTrim ph)
          (bcryptHash 10 salt pw)]⟩ := by
  have hany1 : rows.any (fun r => r.user_id == jsTrim uid) = false := by
    simp only [List.any_eq_false]
    intro r hr
    simpa using hfuid r hr
  have hany2 : rows.any (fun r => r.email == jsTrim em) = false := by
    simp only [List.any_eq_false]
    intro r hr
    simpa using hfem r hr
  simp [register, falsy, huid, hnm, hem, hph, hpw, ensureDb, initDatabase,
        connError, htable, insertUser, hany1, hany2]

/-- When the identifier matches no stored row, login answers the generic
401 after issuing the single OR-query. -/
theorem login_no_match (db : DB) (rows : List UserRow) (i pw : String)
    (htable : db.usersTable = some rows)
    (hi : i ≠ "") (hpw : pw ≠ "")
    (hfilter : rows.filter
        (fun r => r.user_id == jsTrim i || r.email == jsTrim i) = []) :
    login ConnStatus.ok db ⟨some i, some pw⟩ =
      ⟨⟨401, false, "Invalid User ID/Email or password."⟩, db,
       [Query.selectUserByIdOrEmail (jsTrim i)]⟩ := by
  simp [login, falsy, hi, hpw, ensureDb, initDatabase, connError,
        selectUsersByIdOrEmail, htable, hfilter]

/-- When the OR-query returns at least one row, login considers exactly the
first returned row: the outcome is decided by comparing the supplied
password against that row's stored hash. -/
theorem login_match_head (db : DB) (rows : List UserRow) (i pw : String)
    (u : UserRow) (rest : List UserRow)
    (htable : db.usersTable = some rows)
    (hi : i ≠ "") (hpw : pw ≠ "")
    (hfilter : rows.filter
        (fun r => r.user_id == jsTrim i || r.email == jsTrim i) = u :: rest) :
    login ConnStatus.ok db ⟨some i, some pw⟩ =
      ⟨if bcryptCompare pw u.password then ⟨200, true, "Login successful!"⟩
        else ⟨401, false, "Invalid User ID/Email or password."⟩, db,
       [Query.selectUserByIdOrEmail (jsTrim i)]⟩ := by
  have hsel : selectUsersByIdOrEmail db (jsTrim i) = .ok (u :: rest) := by
    simp [selectUsersByIdOrEmail, htable, hfilter]
  simp only [login, falsy, ensureDb_table_ready db rows htable, hsel]
  simp [hi, hpw]
  rw [hsel]
  rcases hb : bcryptCompare pw u.password with _ | _ <;> simp [hb]

/-! ## Claim theorems -/

/-- Claim C8: the schema bootstrap is idempotent — for every store state in
which the users table already exists, running `initDatabase` again leaves
the store unchanged (CREATE TABLE IF NOT EXISTS creates the table only if
missing). -/
theorem initDatabase_idempotent (db : DB) (rows : List UserRow)
    (h : db.usersTable = some rows) :
    initDatabase ConnStatus.ok db = Except.ok db := by
  simp [initDatabase, connError, h]

theorem initDatabase_idempotent_witness :
    (⟨some [], 1, 0⟩ : DB).usersTable = some [] ∧
      initDatabase ConnStatus.ok ⟨some [], 1, 0⟩ = Except.ok ⟨some [], 1, 0⟩ :=
  ⟨rfl, initDatabase_idempotent ⟨some [], 1, 0⟩ [] rfl⟩

/-- Claim C4 counterexample: a registration whose `phone` is the blank
string " " is empty after trimming, yet register does not fail with the
validation error — it succeeds, touches the store, and inserts a row whose
stored phone is the empty string. -/
theorem register_blank_phone_inserts_row :
    (register ConnStatus.ok 5 ⟨some [], 1, 0⟩
        ⟨some "u1", some "Nia", some "e@x.com", some " ", some "pw"⟩).resp
      = ⟨200, true, "Registration successful. Redirecting to login..."⟩
    ∧ (register ConnStatus.ok 5 ⟨some [], 1, 0⟩
        ⟨some "u1", some "Nia", some "e@x.com", some " ", some "pw"⟩).db.usersTable
      = some [⟨1, "u1", "Nia", "e@x.com", "", bcryptHash 10 5 "pw", 0⟩]
    ∧ (register ConnStatus.ok 5 ⟨some [], 1, 0⟩
        ⟨some "u1", some "Nia", some "e@x.com", some " ", some "pw"⟩).queries ≠ [] ∧
    jsTrim " " = "" := by
  decide

/-- Claim C4 (amended): when any of the five registration fields is missing
or the empty string as supplied (JavaScript falsiness, checked before
trimming), register fails with the "All fields are required." validation
response, leaves the store unchanged, and issues no store query — under any
store connectivity whatsoever.  Fields that are non-empty but whitespace
only pass this validation. -/
theorem register_missing_field_validation
    (conn : ConnStatus) (salt : Nat) (db : DB) (b : RegisterBody)
    (h : (falsy b.user_id || falsy b.name || falsy b.email || falsy b.phone
          || falsy b.password) = true) :
    register conn salt db b = ⟨⟨400, false, "All fields are required."⟩, db, []⟩ := by
  simp [register, h]

theorem register_missing_field_validation_witness :
    (falsy (some "u1") || falsy (some "Nia") || falsy (some "e@x.com")
        || falsy (some "") || falsy (some "pw")) = true ∧
      register ConnStatus.ok 5 ⟨some [], 1, 0⟩
          ⟨some "u1", some "Nia", some "e@x.com", some "", some "pw"⟩
        = ⟨⟨400, false, "All fields are required."⟩, ⟨some [], 1, 0⟩, []⟩ :=
  ⟨by decide,
   register_missing_field_validation ConnStatus.ok 5 ⟨some [], 1, 0⟩
     ⟨some "u1", some "Nia", some "e@x.com", some "", some "pw"⟩ (by decide)⟩

/-- Claim C1: when the `user_id` equals a stored row's `user_id`, or the
`email` equals a stored row's `email` (stored values are trimmed, being
fixed points of `jsTrim`), the insert violates a UNIQUE constraint and
register fails with the combined 400 client-fault message
"User ID or Email already exists." — the same response whichever of the two
fields collided (so it reveals nothing about which), with the store left
unchanged, and distinct in status from the 500 server-fault outcomes. -/
theorem register_duplicate_unified_response
    (salt : Nat) (db : DB) (rows : List UserRow) (uid nm em ph pw : String)
    (htable : db.usersTable = some rows)
    (huid : uid ≠ "") (hnm : nm ≠ "") (hem : em ≠ "") (hph : ph ≠ "") (hpw : pw ≠ "")
    (hwf : ∀ r ∈ rows, jsTrim r.user_id = r.user_id ∧ jsTrim r.email = r.email)
    (hdup : ∃ r ∈ rows, r.user_id = uid ∨ r.email = em) :
    register ConnStatus.ok salt db ⟨some uid, some nm, some em, some ph, some pw⟩ =
      ⟨⟨400, false, "User ID or Email already exists."⟩, db,
       [Query.insertUser (jsTrim uid) (jsTrim nm) (jsTrim em) (jsTrim ph)
          (bcryptHash 10 salt pw)]⟩
    ∧ (400 : Nat) ≠ 500 := by
  refine ⟨?_, by decide⟩
  rcases hdup with ⟨r, hr, hcol⟩
  have hcolt : r.user_id = jsTrim uid ∨ r.email = jsTrim em := by
    rcases hcol with hcu | hce
    · left
      have : jsTrim uid = uid := by rw [← hcu]; exact (hwf r hr).1
      rw [this, hcu]
    · right
      have : jsTrim em = em := by rw [← hce]; exact (hwf r hr).2
      rw [this, hce]
  rcases h1 : rows.any (fun q => q.user_id == jsTrim uid) with _ | _
  · -- no user_id collision in the table, so the email must collide
    have hem2 : rows.any (fun q => q.email == jsTrim em) = true := by
      rcases hcolt with hcu | hce
      · exfalso
        have := List.any_eq_false.mp h1 r hr
        simp [hcu] at this
      · exact List.any_eq_true.mpr ⟨r, hr, by simp [hce]⟩
    simp [register, falsy, huid, hnm, hem, hph, hpw, ensureDb, initDatabase,
          connError, htable, insertUser, h1, hem2, classifyRegisterError]
  · simp [register, falsy, huid, hnm, hem, hph, hpw, ensureDb, initDatabase,
          connError, htable, insertUser, h1, classifyRegisterError]

theorem register_duplicate_unified_response_witness :
    ((⟨some [⟨1, "u1", "Nia", "e@x.com", "5", bcryptHash 10 0 "pw", 0⟩], 2, 0⟩ : DB).usersTable
        = some [⟨1, "u1", "Nia", "e@x.com", "5", bcryptHash 10 0 "pw", 0⟩]) ∧
      (register ConnStatus.ok 3
          ⟨some [⟨1, "u1", "Nia", "e@x.com", "5", bcryptHash 10 0 "pw", 0⟩], 2, 0⟩
          ⟨some "u1", some "Bob", some "b@y.com", some "7", some "qq"⟩ =
        ⟨⟨400, false, "User ID or Email already exists."⟩,
         ⟨some [⟨1, "u1", "Nia", "e@x.com", "5", bcryptHash 10 0 "pw", 0⟩], 2, 0⟩,
         [Query.insertUser "u1" "Bob" "b@y.com" "7" (bcryptHash 10 3 "qq")]⟩
        ∧ (400 : Nat) ≠ 500) :=
  ⟨rfl,
   register_duplicate_unified_response 3
     ⟨some [⟨1, "u1", "Nia", "e@x.com", "5", bcryptHash 10 0 "pw", 0⟩], 2, 0⟩
     [⟨1, "u1", "Nia", "e@x.com", "5", bcryptHash 10 0 "pw", 0⟩]
     "u1" "Bob" "b@y.com" "7" "qq" rfl (by decide) (by decide) (by decide)
     (by decide) (by decide) (by decide)
     ⟨⟨1, "u1", "Nia", "e@x.com", "5", bcryptHash 10 0 "pw", 0⟩, by decide, by decide⟩⟩

/-- The stored rendering of a bcrypt hash is never the hashed plaintext
itself: the modular-crypt header makes it strictly longer. -/
theorem BcryptHash.render_ne_digest (h : BcryptHash) : h.render ≠ h.digest := by
  intro heq
  have hlen := congrArg String.length heq
  have h4 : "$2b$".length = 4 := rfl
  have h1 : "$".length = 1 := rfl
  simp only [BcryptHash.render, String.length_append, h4, h1] at hlen
  omega

/-- Claim C3: the two login failure causes are indistinguishable.  For any
login whose identifier matches no stored record, and any login whose
identifier matches a record but whose password does not match that record's
stored hash, both fail with status 401 carrying the identical generic
message, so the caller cannot tell "no such user" from "wrong password". -/
theorem login_failure_causes_indistinguishable
    (db : DB) (rows : List UserRow) (i1 pw1 i2 pw2 : String)
    (u : UserRow) (rest : List UserRow)
    (htable : db.usersTable = some rows)
    (hi1 : i1 ≠ "") (hpw1 : pw1 ≠ "") (hi2 : i2 ≠ "") (hpw2 : pw2 ≠ "")
    (hmiss : rows.filter
        (fun r => r.user_id == jsTrim i1 || r.email == jsTrim i1) = [])
    (hhit : rows.filter
        (fun r => r.user_id == jsTrim i2 || r.email == jsTrim i2) = u :: rest)
    (hwrong : bcryptCompare pw2 u.password = false) :
    (login ConnStatus.ok db ⟨some i1, some pw1⟩).resp
        = ⟨401, false, "Invalid User ID/Email or password."⟩
    ∧ (login ConnStatus.ok db ⟨some i2, some pw2⟩).resp
        = ⟨401, false, "Invalid User ID/Email or password."⟩
    ∧ (login ConnStatus.ok db ⟨some i1, some pw1⟩).resp
        = (login ConnStatus.ok db ⟨some i2, some pw2⟩).resp := by
  have h1 := login_no_match db rows i1 pw1 htable hi1 hpw1 hmiss
  have h2 := login_match_head db rows i2 pw2 u rest htable hi2 hpw2 hhit
  rw [h1, h2]
  simp [hwrong]

theorem login_failure_causes_indistinguishable_witness :
    ((⟨some [⟨1, "u1", "Nia", "e@x.com", "5", bcryptHash 10 0 "pw", 0⟩], 2, 0⟩ : DB).usersTable
        = some [⟨1, "u1", "Nia", "e@x.com", "5", bcryptHash 10 0 "pw", 0⟩]) ∧
      ((login ConnStatus.ok
          ⟨some [⟨1, "u1", "Nia", "e@x.com", "5", bcryptHash 10 0 "pw", 0⟩], 2, 0⟩
          ⟨some "ghost", some "pw"⟩).resp
        = ⟨401, false, "Invalid User ID/Email or password."⟩
      ∧ (login ConnStatus.ok
          ⟨some [⟨1, "u1", "Nia", "e@x.com", "5", bcryptHash 10 0 "pw", 0⟩], 2, 0⟩
          ⟨some "u1", some "wrong"⟩).resp
        = ⟨401, false, "Invalid User ID/Email or password."⟩
      ∧ (login ConnStatus.ok
          ⟨some [⟨1, "u1", "Nia", "e@x.com", "5", bcryptHash 10 0 "pw", 0⟩], 2, 0⟩
          ⟨some "ghost", some "pw"⟩).resp
        = (login ConnStatus.ok
          ⟨some [⟨1, "u1", "Nia", "e@x.com", "5", bcryptHash 10 0 "pw", 0⟩], 2, 0⟩
          ⟨some "u1", some "wrong"⟩).resp) :=
  ⟨rfl,
   login_failure_causes_indistinguishable
     ⟨some [⟨1, "u1", "Nia", "e@x.com", "5", bcryptHash 10 0 "pw", 0⟩], 2, 0⟩
     [⟨1, "u1", "Nia", "e@x.com", "5", bcryptHash 10 0 "pw", 0⟩]
     "ghost" "pw" "u1" "wrong"
     ⟨1, "u1", "Nia", "e@x.com", "5", bcryptHash 10 0 "pw", 0⟩ []
     rfl (by decide) (by decide) (by decide) (by decide)
     (by decide) (by decide) (by decide)⟩

/-- Claim C6: for every validation-passing login against a reachable store
with an existing users table, the candidate record is found by exactly one
store query — the OR-query matching the trimmed identifier against the
`user_id` column or the `email` column — whatever the outcome; and that
single query returns precisely the rows whose `user_id` or `email` equals
the trimmed identifier. -/
theorem login_issues_single_or_query
    (db : DB) (rows : List UserRow) (i pw : String)
    (htable : db.usersTable = some rows)
    (hi : i ≠ "") (hpw : pw ≠ "") :
    (login ConnStatus.ok db ⟨some i, some pw⟩).queries
        = [Query.selectUserByIdOrEmail (jsTrim i)]
    ∧ selectUsersByIdOrEmail db (jsTrim i)
        = Except.ok (rows.filter
            (fun r => r.user_id == jsTrim i || r.email == jsTrim i)) := by
  refine ⟨?_, by simp [selectUsersByIdOrEmail, htable]⟩
  rcases hf : rows.filter (fun r => r.user_id == jsTrim i || r.email == jsTrim i)
    with _ | ⟨u, rest⟩
  · rw [login_no_match db rows i pw htable hi hpw hf]
  · rw [login_match_head db rows i pw u rest htable hi hpw hf]

theorem login_issues_single_or_query_witness :
    ((⟨some [], 1, 0⟩ : DB).usersTable = some []) ∧
      ((login ConnStatus.ok ⟨some [], 1, 0⟩ ⟨some " u1 ", some "pw"⟩).queries
          = [Query.selectUserByIdOrEmail (jsTrim " u1 ")]
      ∧ selectUsersByIdOrEmail ⟨some [], 1, 0⟩ (jsTrim " u1 ")
          = Except.ok (([] : List UserRow).filter
              (fun r => r.user_id == jsTrim " u1 " || r.email == jsTrim " u1 "))) :=
  ⟨rfl,
   login_issues_single_or_query ⟨some [], 1, 0⟩ [] " u1 " "pw" rfl
     (by decide) (by decide)⟩

/-- Claim C5: every successful registration stores, in the password column,
the bcrypt hash of the supplied password at cost factor 10 with the salt
drawn by the hashing routine — and that stored value is never equal to the
supplied plaintext password. -/
theorem register_stores_salted_hash
    (salt : Nat) (db : DB) (rows : List UserRow) (uid nm em ph pw : String)
    (htable : db.usersTable = some rows)
    (huid : uid ≠ "") (hnm : nm ≠ "") (hem : em ≠ "") (hph : ph ≠ "") (hpw : pw ≠ "")
    (hfuid : ∀ r ∈ rows, r.user_id ≠ jsTrim uid)
    (hfem : ∀ r ∈ rows, r.email ≠ jsTrim em) :
    (register ConnStatus.ok salt db
        ⟨some uid, some nm, some em, some ph, some pw⟩).db.usersTable
      = some (rows ++
          [⟨db.nextId, jsTrim uid, jsTrim nm, jsTrim em, jsTrim ph,
            bcryptHash 10 salt pw, db.clock⟩])
    ∧ (bcryptHash 10 salt pw).cost = 10
    ∧ (bcryptHash 10 salt pw).render ≠ pw := by
  refine ⟨?_, rfl, BcryptHash.render_ne_digest (bcryptHash 10 salt pw)⟩
  rw [register_fresh_success salt db rows uid nm em ph pw htable
        huid hnm hem hph hpw hfuid hfem]

theorem register_stores_salted_hash_witness :
    ((⟨some [], 1, 0⟩ : DB).usersTable = some []) ∧
      ((register ConnStatus.ok 9 ⟨some [], 1, 0⟩
          ⟨some "u1", some "Nia", some "e@x.com", some "5", some "hunter2"⟩).db.usersTable
        = some ([] ++ [⟨1, jsTrim "u1", jsTrim "Nia", jsTrim "e@x.com", jsTrim "5",
                bcryptHash 10 9 "hunter2", 0⟩])
      ∧ (bcryptHash 10 9 "hunter2").cost = 10
      ∧ (bcryptHash 10 9 "hunter2").render ≠ "hunter2") :=
  ⟨rfl,
   register_stores_salted_hash 9 ⟨some [], 1, 0⟩ [] "u1" "Nia" "e@x.com" "5" "hunter2"
     rfl (by decide) (by decide) (by decide) (by decide) (by decide)
     (by decide) (by decide)⟩

/-- Claim C2 counterexample: a registration can succeed with a fresh
`user_id` and a fresh `email` and yet a subsequent login with the
registered `user_id` and the same password fails.  Here "bob" is fresh as a
`user_id`, but an earlier row carries "bob" in its `email` column, so the
OR-lookup returns that earlier row first and the password is compared
against the wrong record's hash. -/
theorem login_cross_identifier_counterexample :
    (register ConnStatus.ok 1
        ⟨some [⟨1, "u1", "Old", "bob", "5", bcryptHash 10 0 "x", 0⟩], 2, 0⟩
        ⟨some "bob", some "New", some "b@x.com", some "7", some "y"⟩).resp
      = ⟨200, true, "Registration successful. Redirecting to login..."⟩
    ∧ (login ConnStatus.ok
        (register ConnStatus.ok 1
          ⟨some [⟨1, "u1", "Old", "bob", "5", bcryptHash 10 0 "x", 0⟩], 2, 0⟩
          ⟨some "bob", some "New", some "b@x.com", some "7", some "y"⟩).db
        ⟨some "bob", some "y"⟩).resp
      = ⟨401, false, "Invalid User ID/Email or password."⟩ := by
  decide

/-- Claim C2 (amended): for every set of five non-empty fields whose
trimmed `user_id` and `email` are fresh in their own columns AND collide
with no stored record's other column (no stored row's email equals the new
user_id, nor stored user_id the new email), registration succeeds, a login
with the registered `user_id` and the same password succeeds, a login with
the registered `email` and the same password succeeds, and a login with
either identifier and any other non-empty password fails with the generic
invalid-credentials 401. -/
theorem register_login_roundtrip
    (salt : Nat) (db : DB) (rows : List UserRow) (uid nm em ph pw cand : String)
    (htable : db.usersTable = some rows)
    (htu : jsTrim uid = uid) (hte : jsTrim em = em)
    (huid : uid ≠ "") (hnm : nm ≠ "") (hem : em ≠ "") (hph : ph ≠ "") (hpw : pw ≠ "")
    (hfresh : ∀ r ∈ rows,
      r.user_id ≠ uid ∧ r.email ≠ em ∧ r.email ≠ uid ∧ r.user_id ≠ em)
    (hcand : cand ≠ pw) (hcand0 : cand ≠ "") :
    (register ConnStatus.ok salt db
        ⟨some uid, some nm, some em, some ph, some pw⟩).resp
      = ⟨200, true, "Registration successful. Redirecting to login..."⟩
    ∧ (login ConnStatus.ok (register ConnStatus.ok salt db
        ⟨some uid, some nm, some em, some ph, some pw⟩).db
        ⟨some uid, some pw⟩).resp = ⟨200, true, "Login successful!"⟩
    ∧ (login ConnStatus.ok (register ConnStatus.ok salt db
        ⟨some uid, some nm, some em, some ph, some pw⟩).db
        ⟨some em, some pw⟩).resp = ⟨200, true, "Login successful!"⟩
    ∧ (login ConnStatus.ok (register ConnStatus.ok salt db
        ⟨some uid, some nm, some em, some ph, some pw⟩).db
        ⟨some uid, some cand⟩).resp
      = ⟨401, false, "Invalid User ID/Email or password."⟩
    ∧ (login ConnStatus.ok (register ConnStatus.ok salt db
        ⟨some uid, some nm, some em, some ph, some pw⟩).db
        ⟨some em, some cand⟩).resp
      = ⟨401, false, "Invalid User ID/Email or password."⟩ := by
  have hreg := register_fresh_success salt db rows uid nm em ph pw htable
    huid hnm hem hph hpw
    (fun r hr => by rw [htu]; exact (hfresh r hr).1)
    (fun r hr => by rw [hte]; exact (hfresh r hr).2.1)
  rw [hreg]
  simp only [htu, hte]
  set newRow : UserRow :=
    ⟨db.nextId, uid, jsTrim nm, em, jsTrim ph, bcryptHash 10 salt pw, db.clock⟩
    with hnew
  set db2 : DB :=
    { db with usersTable := some (rows ++ [newRow]), nextId := db.nextId + 1 }
    with hdb2
  have htable2 : db2.usersTable = some (rows ++ [newRow]) := rfl
  have hnil_u : rows.filter (fun r => r.user_id == uid || r.email == uid) = [] := by
    rw [List.filter_eq_nil_iff]
    intro r hr
    simp only [Bool.or_eq_true, beq_iff_eq, not_or]
    exact ⟨(hfresh r hr).1, (hfresh r hr).2.2.1⟩
  have hnil_e : rows.filter (fun r => r.user_id == em || r.email == em) = [] := by
    rw [List.filter_eq_nil_iff]
    intro r hr
    simp only [Bool.or_eq_true, beq_iff_eq, not_or]
    exact ⟨(hfresh r hr).2.2.2, (hfresh r hr).2.1⟩
  have hfu : (rows ++ [newRow]).filter
      (fun r => r.user_id == jsTrim uid || r.email == jsTrim uid) = [newRow] := by
    rw [htu, List.filter_append, hnil_u]
    simp [hnew]
  have hfe : (rows ++ [newRow]).filter
      (fun r => r.user_id == jsTrim em || r.email == jsTrim em) = [newRow] := by
    rw [hte, List.filter_append, hnil_e]
    simp [hnew]
  have hcmp_t : bcryptCompare pw newRow.password = true :=
    (bcryptCompare_hash_iff pw pw 10 salt).mpr rfl
  have hcmp_f : bcryptCompare cand newRow.password = false := by
    rcases hb : bcryptCompare cand newRow.password with _ | _
    · rfl
    · exact absurd ((bcryptCompare_hash_iff cand pw 10 salt).mp hb) hcand
  refine ⟨by trivial, ?_, ?_, ?_, ?_⟩
  · rw [login_match_head db2 (rows ++ [newRow]) uid pw newRow [] htable2
          huid hpw hfu]
    simp [hcmp_t]
  · rw [login_match_head db2 (rows ++ [newRow]) em pw newRow [] htable2
          hem hpw hfe]
    simp [hcmp_t]
  · rw [login_match_head db2 (rows ++ [newRow]) uid cand newRow [] htable2
          huid hcand0 hfu]
    simp [hcmp_f]
  · rw [login_match_head db2 (rows ++ [newRow]) em cand newRow [] htable2
          hem hcand0 hfe]
    simp [hcmp_f]

theorem register_login_roundtrip_witness :
    ((⟨some [], 1, 0⟩ : DB).usersTable = some []) ∧
      ((register ConnStatus.ok 2 ⟨some [], 1, 0⟩
          ⟨some "alice1", some "Alice", some "a@x.com", some "555", some "Secr3t"⟩).resp
        = ⟨200, true, "Registration successful. Redirecting to login..."⟩
      ∧ (login ConnStatus.ok (register ConnStatus.ok 2 ⟨some [], 1, 0⟩
          ⟨some "alice1", some "Alice", some "a@x.com", some "555", some "Secr3t"⟩).db
          ⟨some "alice1", some "Secr3t"⟩).resp = ⟨200, true, "Login successful!"⟩
      ∧ (login ConnStatus.ok (register ConnStatus.ok 2 ⟨some [], 1, 0⟩
          ⟨some "alice1", some "Alice", some "a@x.com", some "555", some "Secr3t"⟩).db
          ⟨some "a@x.com", some "Secr3t"⟩).resp = ⟨200, true, "Login successful!"⟩
      ∧ (login ConnStatus.ok (register ConnStatus.ok 2 ⟨some [], 1, 0⟩
          ⟨some "alice1", some "Alice", some "a@x.com", some "555", some "Secr3t"⟩).db
          ⟨some "alice1", some "wrong"⟩).resp
        = ⟨401, false, "Invalid User ID/Email or password."⟩
      ∧ (login ConnStatus.ok (register ConnStatus.ok 2 ⟨some [], 1, 0⟩
          ⟨some "alice1", some "Alice", some "a@x.com", some "555", some "Secr3t"⟩).db
          ⟨some "a@x.com", some "wrong"⟩).resp
        = ⟨401, false, "Invalid User ID/Email or password."⟩) :=
  ⟨rfl,
   register_login_roundtrip 2 ⟨some [], 1, 0⟩ [] "alice1" "Alice" "a@x.com" "555"
     "Secr3t" "wrong" rfl (by decide) (by decide) (by decide) (by decide)
     (by decide) (by decide) (by decide) (by decide) (by decide) (by decide)⟩

/-- Claim C9: when the identifier matches two different stored records —
one by `user_id` and, later in the table, another by `email` — only the
first row returned by the OR-query is considered: the supplied password is
compared against that single record's hash, and the login fails with the
generic 401 even though the password matches the other matching record's
hash. -/
theorem login_considers_first_row_only
    (db : DB) (A B : List UserRow) (r1 r2 : UserRow) (i pw : String)
    (htable : db.usersTable = some (A ++ r1 :: B))
    (hti : jsTrim i = i) (hi : i ≠ "") (hpw : pw ≠ "")
    (hA : ∀ r ∈ A, r.user_id ≠ i ∧ r.email ≠ i)
    (hr1 : r1.user_id = i)
    (hr2 : r2 ∈ B) (hr2e : r2.email = i) (hne : r1 ≠ r2)
    (hwrong : bcryptCompare pw r1.password = false)
    (hright : bcryptCompare pw r2.password = true) :
    (login ConnStatus.ok db ⟨some i, some pw⟩).resp
      = ⟨401, false, "Invalid User ID/Email or password."⟩ := by
  have hnilA : A.filter (fun r => r.user_id == i || r.email == i) = [] := by
    rw [List.filter_eq_nil_iff]
    intro r hr
    simp only [Bool.or_eq_true, beq_iff_eq, not_or]
    exact hA r hr
  have hfilter : (A ++ r1 :: B).filter
      (fun r => r.user_id == jsTrim i || r.email == jsTrim i)
      = r1 :: B.filter (fun r => r.user_id == i || r.email == i) := by
    rw [hti, List.filter_append, hnilA]
    simp [List.filter_cons, hr1]
  rw [login_match_head db (A ++ r1 :: B) i pw r1
        (B.filter (fun r => r.user_id == i || r.email == i)) htable hi hpw hfilter]
  simp [hwrong]

theorem login_considers_first_row_only_witness :
    ((⟨some [⟨1, "bob", "Old", "o@x.com", "5", bcryptHash 10 0 "x", 0⟩,
            ⟨2, "u2", "New", "bob", "7", bcryptHash 10 1 "y", 0⟩], 3, 0⟩ : DB).usersTable
        = some ([] ++ ⟨1, "bob", "Old", "o@x.com", "5", bcryptHash 10 0 "x", 0⟩ ::
            [⟨2, "u2", "New", "bob", "7", bcryptHash 10 1 "y", 0⟩])) ∧
      (login ConnStatus.ok
          ⟨some [⟨1, "bob", "Old", "o@x.com", "5", bcryptHash 10 0 "x", 0⟩,
                 ⟨2, "u2", "New", "bob", "7", bcryptHash 10 1 "y", 0⟩], 3, 0⟩
          ⟨some "bob", some "y"⟩).resp
        = ⟨401, false, "Invalid User ID/Email or password."⟩ :=
  ⟨rfl,
   login_considers_first_row_only
     ⟨some [⟨1, "bob", "Old", "o@x.com", "5", bcryptHash 10 0 "x", 0⟩,
            ⟨2, "u2", "New", "bob", "7", bcryptHash 10 1 "y", 0⟩], 3, 0⟩
     [] [⟨2, "u2", "New", "bob", "7", bcryptHash 10 1 "y", 0⟩]
     ⟨1, "bob", "Old", "o@x.com", "5", bcryptHash 10 0 "x", 0⟩
     ⟨2, "u2", "New", "bob", "7", bcryptHash 10 1 "y", 0⟩
     "bob" "y" rfl (by decide) (by decide) (by decide) (by decide)
     (by decide) (by decide) (by decide) (by decide) (by decide) (by decide)⟩

/-- Claim C10: the password is used exactly as supplied on both sides —
unlike the other fields it is never trimmed.  Registering stores the bcrypt
hash of the raw password; logging in with that exact raw password succeeds;
logging in with a different password that trims to the same string (so the
two differ only in surrounding whitespace) fails with the generic 401. -/
theorem password_not_trimmed
    (salt : Nat) (db : DB) (rows : List UserRow) (uid nm em ph pw cand : String)
    (htable : db.usersTable = some rows)
    (htu : jsTrim uid = uid)
    (huid : uid ≠ "") (hnm : nm ≠ "") (hem : em ≠ "") (hph : ph ≠ "") (hpw : pw ≠ "")
    (hfuid : ∀ r ∈ rows, r.user_id ≠ uid ∧ r.email ≠ uid)
    (hfem : ∀ r ∈ rows, r.email ≠ jsTrim em)
    (hws : jsTrim cand = jsTrim pw) (hcand : cand ≠ pw) (hcand0 : cand ≠ "") :
    (register ConnStatus.ok salt db
        ⟨some uid, some nm, some em, some ph, some pw⟩).db.usersTable
      = some (rows ++ [⟨db.nextId, uid, jsTrim nm, jsTrim em, jsTrim ph,
          bcryptHash 10 salt pw, db.clock⟩])
    ∧ (login ConnStatus.ok (register ConnStatus.ok salt db
        ⟨some uid, some nm, some em, some ph, some pw⟩).db
        ⟨some uid, some pw⟩).resp = ⟨200, true, "Login successful!"⟩
    ∧ (login ConnStatus.ok (register ConnStatus.ok salt db
        ⟨some uid, some nm, some em, some ph, some pw⟩).db
        ⟨some uid, some cand⟩).resp
      = ⟨401, false, "Invalid User ID/Email or password."⟩ := by
  have hreg := register_fresh_success salt db rows uid nm em ph pw htable
    huid hnm hem hph hpw
    (fun r hr => by rw [htu]; exact (hfuid r hr).1)
    hfem
  rw [hreg]
  simp only [htu]
  set newRow : UserRow :=
    ⟨db.nextId, uid, jsTrim nm, jsTrim em, jsTrim ph, bcryptHash 10 salt pw, db.clock⟩
    with hnew
  set db2 : DB :=
    { db with usersTable := some (rows ++ [newRow]), nextId := db.nextId + 1 }
    with hdb2
  have htable2 : db2.usersTable = some (rows ++ [newRow]) := rfl
  have hnil_u : rows.filter (fun r => r.user_id == uid || r.email == uid) = [] := by
    rw [List.filter_eq_nil_iff]
    intro r hr
    simp only [Bool.or_eq_true, beq_iff_eq, not_or]
    exact hfuid r hr
  have hfu : (rows ++ [newRow]).filter
      (fun r => r.user_id == jsTrim uid || r.email == jsTrim uid) = [newRow] := by
    rw [htu, List.filter_append, hnil_u]
    simp [hnew]
  have hcmp_t : bcryptCompare pw newRow.password = true :=
    (bcryptCompare_hash_iff pw pw 10 salt).mpr rfl
  have hcmp_f : bcryptCompare cand newRow.password = false := by
    rcases hb : bcryptCompare cand newRow.password with _ | _
    · rfl
    · exact absurd ((bcryptCompare_hash_iff cand pw 10 salt).mp hb) hcand
  refine ⟨by trivial, ?_, ?_⟩
  · rw [login_match_head db2 (rows ++ [newRow]) uid pw newRow [] htable2
          huid hpw hfu]
    simp [hcmp_t]
  · rw [login_match_head db2 (rows ++ [newRow]) uid cand newRow [] htable2
          huid hcand0 hfu]
    simp [hcmp_f]

theorem password_not_trimmed_witness :
    ((⟨some [], 1, 0⟩ : DB).usersTable = some []) ∧
      ((register ConnStatus.ok 4 ⟨some [], 1, 0⟩
          ⟨some "u1", some "Nia", some "e@x.com", some "5", some " pw"⟩).db.usersTable
        = some ([] ++ [⟨1, "u1", jsTrim "Nia", jsTrim "e@x.com", jsTrim "5",
            bcryptHash 10 4 " pw", 0⟩])
      ∧ (login ConnStatus.ok (register ConnStatus.ok 4 ⟨some [], 1, 0⟩
          ⟨some "u1", some "Nia", some "e@x.com", some "5", some " pw"⟩).db
          ⟨some "u1", some " pw"⟩).resp = ⟨200, true, "Login successful!"⟩
      ∧ (login ConnStatus.ok (register ConnStatus.ok 4 ⟨some [], 1, 0⟩
          ⟨some "u1", some "Nia", some "e@x.com", some "5", some " pw"⟩).db
          ⟨some "u1", some "pw"⟩).resp
        = ⟨401, false, "Invalid User ID/Email or password."⟩) :=
  ⟨rfl,
   password_not_trimmed 4 ⟨some [], 1, 0⟩ [] "u1" "Nia" "e@x.com" "5" " pw" "pw"
     rfl (by decide) (by decide) (by decide) (by decide) (by decide) (by decide)
     (by decide) (by decide) (by decide) (by decide) (by decide)⟩

/-- A register call against an unreachable or misconfigured store fails in
`ensureDb` before any query is issued, and the response is the catch-block
classification of the driver error. -/
theorem register_conn_down
    (conn : ConnStatus) (salt : Nat) (db : DB) (uid nm em ph pw : String)
    (e : JsError) (hc : connError conn = some e)
    (huid : uid ≠ "") (hnm : nm ≠ "") (hem : em ≠ "") (hph : ph ≠ "") (hpw : pw ≠ "") :
    register conn salt db ⟨some uid, some nm, some em, some ph, some pw⟩
      = ⟨classifyRegisterError e, db, []⟩ := by
  simp [register, falsy, huid, hnm, hem, hph, hpw, ensureDb, initDatabase, hc]

/-- A login call against an unreachable or misconfigured store fails in
`ensureDb` before any query is issued, and the response is the catch-block
classification of the driver error. -/
theorem login_conn_down
    (conn : ConnStatus) (db : DB) (i pw : String)
    (e : JsError) (hc : connError conn = some e)
    (hi : i ≠ "") (hpw : pw ≠ "") :
    login conn db ⟨some i, some pw⟩ = ⟨classifyLoginError e, db, []⟩ := by
  simp [login, falsy, hi, hpw, ensureDb, initDatabase, hc]

/-- Claim C7 counterexample: a register call during which the store host
cannot be resolved (ENOTFOUND — an unreachable/misconfigured store) does
NOT get a distinct store-unavailable outcome: it yields exactly the generic
"Server error. Please try again." response, identical to the register
classification of an arbitrary unexpected internal driver fault. -/
theorem register_enotfound_generic_response :
    (register ConnStatus.hostNotFound 0 ⟨some [], 1, 0⟩
        ⟨some "u1", some "Nia", some "e@x.com", some "5", some "pw"⟩).resp
      = ⟨500, false, "Server error. Please try again."⟩
    ∧ (register ConnStatus.hostNotFound 0 ⟨some [], 1, 0⟩
        ⟨some "u1", some "Nia", some "e@x.com", some "5", some "pw"⟩).resp
      = classifyRegisterError ⟨"unexpected driver fault", "EUNKNOWN"⟩ := by
  decide

/-- Claim C7 (amended): refused connections, timed-out connections and
DB_PASSWORD misconfiguration are classified by both operations as 500
server-fault responses with store-specific messages, distinct from the
validation, duplicate, invalid-credentials and generic internal-error
outcomes.  Login additionally classifies a lost connection and an
unresolvable host the same way; register instead funnels those two failure
modes into the generic internal-error response. -/
theorem store_error_classification
    (salt : Nat) (db : DB) (uid nm em ph pw i lpw : String)
    (huid : uid ≠ "") (hnm : nm ≠ "") (hem : em ≠ "") (hph : ph ≠ "") (hpw : pw ≠ "")
    (hi : i ≠ "") (hlpw : lpw ≠ "") :
    ((register ConnStatus.connRefused salt db
        ⟨some uid, some nm, some em, some ph, some pw⟩).resp
      = ⟨500, false, "Database connection failed. Please try again later."⟩
    ∧ (register ConnStatus.timedOut salt db
        ⟨some uid, some nm, some em, some ph, some pw⟩).resp
      = ⟨500, false, "Database connection failed. Please try again later."⟩
    ∧ (register ConnStatus.configMissingPassword salt db
        ⟨some uid, some nm, some em, some ph, some pw⟩).resp
      = ⟨500, false, "Database configuration error. Please check server logs."⟩)
    ∧ ((login ConnStatus.connRefused db ⟨some i, some lpw⟩).resp
      = ⟨500, false, "Database connection failed. Please try again later."⟩
    ∧ (login ConnStatus.timedOut db ⟨some i, some lpw⟩).resp
      = ⟨500, false, "Database connection failed. Please try again later."⟩
    ∧ (login ConnStatus.protocolLost db ⟨some i, some lpw⟩).resp
      = ⟨500, false, "Database connection failed. Please try again later."⟩
    ∧ (login ConnStatus.hostNotFound db ⟨some i, some lpw⟩).resp
      = ⟨500, false, "Database host not found. Check DB_HOST environment variable."⟩
    ∧ (login ConnStatus.configMissingPassword db ⟨some i, some lpw⟩).resp
      = ⟨500, false, "Database configuration error. Check Vercel environment variables."⟩)
    ∧ ((register ConnStatus.protocolLost salt db
        ⟨some uid, some nm, some em, some ph, some pw⟩).resp
      = ⟨500, false, "Server error. Please try again."⟩
    ∧ (register ConnStatus.hostNotFound salt db
        ⟨some uid, some nm, some em, some ph, some pw⟩).resp
      = ⟨500, false, "Server error. Please try again."⟩)
    ∧ ((⟨500, false, "Database connection failed. Please try again later."⟩ : ApiResponse)
        ∉ [(⟨400, false, "All fields are required."⟩ : ApiResponse),
           ⟨400, false, "User ID or Email already exists."⟩,
           ⟨401, false, "Invalid User ID/Email or password."⟩,
           ⟨500, false, "Server error. Please try again."⟩]
    ∧ (⟨500, false, "Database configuration error. Please check server logs."⟩ : ApiResponse)
        ∉ [(⟨400, false, "All fields are required."⟩ : ApiResponse),
           ⟨400, false, "User ID or Email already exists."⟩,
           ⟨401, false, "Invalid User ID/Email or password."⟩,
           ⟨500, false, "Server error. Please try again."⟩]
    ∧ (⟨500, false, "Database configuration error. Check Vercel environment variables."⟩ : ApiResponse)
        ∉ [(⟨400, false, "All fields are required."⟩ : ApiResponse),
           ⟨400, false, "User ID or Email already exists."⟩,
           ⟨401, false, "Invalid User ID/Email or password."⟩,
           ⟨500, false, "Server error. Please try again."⟩]
    ∧ (⟨500, false, "Database host not found. Check DB_HOST environment variable."⟩ : ApiResponse)
        ∉ [(⟨400, false, "All fields are required."⟩ : ApiResponse),
           ⟨400, false, "User ID or Email already exists."⟩,
           ⟨401, false, "Invalid User ID/Email or password."⟩,
           ⟨500, false, "Server error. Please try again."⟩]) := by
  refine ⟨⟨?_, ?_, ?_⟩, ⟨?_, ?_, ?_, ?_, ?_⟩, ⟨?_, ?_⟩, by decide⟩
  · rw [register_conn_down ConnStatus.connRefused salt db uid nm em ph pw _ rfl
          huid hnm hem hph hpw]
    rfl
  · rw [register_conn_down ConnStatus.timedOut salt db uid nm em ph pw _ rfl
          huid hnm hem hph hpw]
    rfl
  · rw [register_conn_down ConnStatus.configMissingPassword salt db uid nm em ph pw _ rfl
          huid hnm hem hph hpw]
    rfl
  · rw [login_conn_down ConnStatus.connRefused db i lpw _ rfl hi hlpw]
    rfl
  · rw [login_conn_down ConnStatus.timedOut db i lpw _ rfl hi hlpw]
    rfl
  · rw [login_conn_down ConnStatus.protocolLost db i lpw _ rfl hi hlpw]
    rfl
  · rw [login_conn_down ConnStatus.hostNotFound db i lpw _ rfl hi hlpw]
    rfl
  · rw [login_conn_down ConnStatus.configMissingPassword db i lpw _ rfl hi hlpw]
    rfl
  · rw [register_conn_down ConnStatus.protocolLost salt db uid nm em ph pw _ rfl
          huid hnm hem hph hpw]
    rfl
  · rw [register_conn_down ConnStatus.hostNotFound salt db uid nm em ph pw _ rfl
          huid hnm hem hph hpw]
    rfl

theorem store_error_classification_witness :
    ("u1" : String) ≠ "" ∧
      (register ConnStatus.connRefused 0 ⟨some [], 1, 0⟩
          ⟨some "u1", some "Nia", some "e@x.com", some "5", some "pw"⟩).resp
        = ⟨500, false, "Database connection failed. Please try again later."⟩ :=
  ⟨by decide,
   (store_error_classification 0 ⟨some [], 1, 0⟩ "u1" "Nia" "e@x.com" "5" "pw"
      "u1" "pw" (by decide) (by decide) (by decide) (by decide) (by decide)
      (by decide) (by decide)).1.1⟩
